/-
Verification of the deep-research agent pipeline (Youhorng/deep-research-ai-agent).

Shallow embedding of the Python sources:
  * `src/deep_research.py`    — `RateLimiter`, `generate_clarification_questions`,
                                `run_deep_research_pipeline`
  * `src/research_manager.py` — `ResearchManager` (validation, planning, search
                                fan-out, report writing, email delivery)
  * `src/email_agent.py`      — the `send_email` function tool

Remote language-model calls (`Runner.run` on the planner / searcher / writer /
clarifier / email agents) are opaque in the source: they are modelled by an
oracle (`AgentOracle`) that fixes each call's outcome as either a produced value
or a fault (`Except`).  Wall-clock time (`time.time()`) and the calendar date
(`datetime.now().strftime`) are passed in as explicit parameters `now : Int`
and `today : String`.  Mutable per-process state (the rate limiter's
`defaultdict`s) is passed as an explicit state value `RLState` and returned
updated.  Python string truthiness/`strip` are modelled by emptiness tests and
a whitespace-strip on the character list.
-/
import Mathlib

set_option autoImplicit false

namespace DeepResearch

/-- Python `str.strip()`: remove leading and trailing whitespace characters.
(Defined on the character list so that it reduces in the kernel.) -/
def strip (s : String) : String :=
  String.mk (((s.data.dropWhile Char.isWhitespace).reverse.dropWhile
      Char.isWhitespace).reverse)

/-! ## RateLimiter (`src/deep_research.py`, lines 24–78) -/

/-- `RateLimiter.__init__(self, requests_per_minute: int = 2, daily_limit: int = 4)`.
The two configuration fields, with the constructor's default values as Lean
structure-field defaults.  (All uses in the source pass nonnegative values, so
the ints are modelled as `Nat`.) -/
structure RateLimiter where
  requests_per_minute : Nat := 2
  daily_limit : Nat := 4

/-- Pointwise update of a string-keyed map, modelling assignment into a Python
`defaultdict`. -/
def upd {α : Type} (f : String → α) (k : String) (v : α) : String → α :=
  fun x => if x = k then v else f x

/-- The limiter's mutable per-process state: `self.request_time` (a
`defaultdict(list)` of request timestamps) and `self.daily_counts` (a
`defaultdict` of `{"date": "", "count": 0}` records), both keyed by user id.
The defaultdict is modelled as a total function whose value at an untouched
key is the default. -/
structure RLState where
  request_time : String → List Int
  daily_date : String → String
  daily_count : String → Nat

/-- The state of a freshly constructed `RateLimiter`: every key maps to the
defaultdict defaults `[]` and `{"date": "", "count": 0}`. -/
def initState : RLState :=
  { request_time := fun _ => [], daily_date := fun _ => "", daily_count := fun _ => 0 }

/-- `RateLimiter.cleanup_old_requests` (lines 41–46): keep only the timestamps
`t` with `now - t < 60`. -/
def cleanup_old_requests (now : Int) (user_id : String) (s : RLState) : RLState :=
  let pruned := (s.request_time user_id).filter (fun t => now - t < 60)
  { s with request_time := upd s.request_time user_id pruned }

/-- `RateLimiter.check_limits` (lines 50–74).  Returns the `(allowed, message)`
pair of the source together with the updated state.  `now` stands for the two
`time.time()` calls of the source (made microseconds apart and modelled as one
instant) and `today` for `get_today()`. -/
def RateLimiter.check_limits (rl : RateLimiter) (now : Int) (today : String)
    (user_id : String) (s : RLState) : (Bool × String) × RLState :=
  -- Clean up the old requests
  let s1 := cleanup_old_requests now user_id s
  -- Check limit of requests per minute
  let recent_requests := (s1.request_time user_id).length
  if recent_requests ≥ rl.requests_per_minute then
    ((false, "Rate limit exceeded: Max " ++ toString rl.requests_per_minute
        ++ " requests per minute."), s1)
  else
    -- Reset the stored daily record if its date is not today
    let s2 :=
      if s1.daily_date user_id ≠ today then
        { s1 with daily_date := upd s1.daily_date user_id today,
                  daily_count := upd s1.daily_count user_id 0 }
      else s1
    -- Check daily limit
    if s2.daily_count user_id ≥ rl.daily_limit then
      ((false, "Daily limit exceeded: Max " ++ toString rl.daily_limit
          ++ " requests per day."), s2)
    else
      -- Record the request
      ((true, "OK"),
        { s2 with
            request_time := upd s2.request_time user_id (s2.request_time user_id ++ [now]),
            daily_count := upd s2.daily_count user_id (s2.daily_count user_id + 1) })

/-- The module-level limiter of line 78:
`rate_limiter = RateLimiter(requests_per_minute=2, daily_limit=2)`. -/
def rate_limiter : RateLimiter :=
  { requests_per_minute := 2, daily_limit := 2 }

/-- Observation: the number of requests the stored daily record attributes to
the calendar day `today` — the stored count if the stored date is `today`,
else `0` (a stale record counts for nothing today; the source resets it on
its next touch). -/
def dailyCountToday (s : RLState) (user_id : String) (today : String) : Nat :=
  if s.daily_date user_id = today then s.daily_count user_id else 0

/-- Iterate `check_limits` `n` times from a state, collecting the
`(allowed, message)` outcomes in order, all at the same instant `now` on the
same day `today` (this models issuing the checks within one second). -/
def runChecks (rl : RateLimiter) (now : Int) (today : String) (user_id : String) :
    Nat → RLState → List (Bool × String) × RLState
  | 0, s => ([], s)
  | n + 1, s =>
    let r := rl.check_limits now today user_id s
    let rest := runChecks rl now today user_id n r.2
    (r.1 :: rest.1, rest.2)

/-! ## Agent data model (`planner_agent.py`, `writer_agent.py`, `email_agent.py`) -/

/-- `WebSearchItem` (`planner_agent.py`, lines 15–17). -/
structure WebSearchItem where
  reason : String
  query : String
deriving DecidableEq

/-- `WebSearchPlan` (`planner_agent.py`, lines 20–21). -/
structure WebSearchPlan where
  searches : List WebSearchItem
deriving DecidableEq

/-- `ReportData` (`writer_agent.py`, lines 11–14). -/
structure ReportData where
  short_summary : String
  markdown_report : String
  follow_up_questions : String
deriving DecidableEq

/-- A dynamically typed Python value that is either a string or a boolean —
needed because `run_deep_research_pipeline` passes its `send_email : bool` and
`recipient_email : str` positionally into `run_pipeline`'s
`(recipient_email, send_email)` slots, so each of those parameters can hold
either type at runtime. -/
inductive PyVal where
  | str : String → PyVal
  | bool : Bool → PyVal
deriving DecidableEq

/-- Python truthiness: a string is truthy iff non-empty; a bool is itself. -/
def PyVal.truthy : PyVal → Bool
  | .str s => !(s = "")
  | .bool b => b

/-- Python `str()` / f-string rendering of such a value (`True` / `False` for
booleans). -/
def PyVal.format : PyVal → String
  | .str s => s
  | .bool true => "True"
  | .bool false => "False"

/-- Outcomes of the opaque remote agent calls made during one pipeline run:
the planner's result, the per-search-task results in completion order, the
writer's result, and the delivery (email agent) result.  `Except.error e`
models `Runner.run` raising an exception whose `str` is `e`. -/
structure AgentOracle where
  planner : Except String WebSearchPlan
  searcher : List (Except String String)
  writer : Except String ReportData
  delivery : Except String Unit

/-- The Mailjet message payload built by the `send_email` function tool
(`email_agent.py`, lines 8–37). -/
structure EmailMessage where
  fromEmail : String
  toEmail : String
  subject : String
  htmlPart : String
deriving DecidableEq

/-- `send_email(subject, html_body, to)` (`email_agent.py`, lines 8–37):
the payload it hands to the Mailjet client.  The `From` and `To` addresses
are hardcoded literals; the `to` parameter is not referenced in the payload. -/
def send_email (subject : String) (html_body : String) (to_addr : String) : EmailMessage :=
  let _ := to_addr   -- the source's `to` parameter: accepted but unused (`to` is a Lean keyword)
  { fromEmail := "youhorng.kean@gmail.com"
    toEmail := "lolishi30@gmail.com"
    subject := subject
    htmlPart := html_body }

/-! ## ResearchManager (`src/research_manager.py`) -/

/-- The indexed pair check of `validate_input`'s `for i, (q, a) in
enumerate(zip(questions, answers))` loop (lines 91–95): return at the first
pair whose question or answer is empty after trimming, question checked
first. -/
def checkPairs : Nat → List (String × String) → Bool × String
  | _, [] => (true, "")
  | i, (q, a) :: rest =>
    if strip q = "" then (false, "Question " ++ toString (i + 1) ++ " is empty")
    else if strip a = "" then (false, "Answer " ++ toString (i + 1) ++ " is empty")
    else checkPairs (i + 1) rest

/-- `ResearchManager.validate_input` (lines 82–97): `(is_valid, error_message)`. -/
def validate_input (query : String) (questions answers : List String) : Bool × String :=
  if query = "" ∨ strip query = "" then (false, "Query cannot be empty")
  else if questions.length ≠ answers.length then
    (false, "Mismatch: " ++ toString questions.length ++ " questions but "
      ++ toString answers.length ++ " answers")
  else checkPairs 0 (questions.zip answers)

/-- The prompt `plan_searches` builds (lines 103–104): the query plus the
newline-joined `Q: …\nA: …` renderings of the zipped question/answer pairs. -/
def plan_prompt (query : String) (questions answers : List String) : String :=
  let clarifying_context :=
    String.intercalate "\n"
      ((questions.zip answers).map (fun p => "Q: " ++ p.1 ++ "\nA: " ++ p.2))
  "Query: " ++ query ++ "\n\nClarifications:\n" ++ clarifying_context

/-- `ResearchManager.plan_searches` (lines 101–117): forward the planner
outcome, raising `Search Planner failed: …` around a remote fault or around
the `ValueError` for an empty plan. -/
def plan_searches (planner_outcome : Except String WebSearchPlan) :
    Except String WebSearchPlan :=
  match planner_outcome with
  | Except.ok search_plan =>
    if search_plan.searches = [] then
      Except.error "Search Planner failed: Planner agent returned no searches"
    else Except.ok search_plan
  | Except.error e => Except.error ("Search Planner failed: " ++ e)

/-- `ResearchManager.search_web` (lines 145–155): a faulting search task is
caught and mapped to `None`; a successful one returns its (string) output. -/
def search_web (item : WebSearchItem) (outcome : Except String String) :
    Option String :=
  let _ := "Search: " ++ item.query ++ "\nReason: " ++ item.reason  -- input_text
  match outcome with
  | Except.ok result => some result
  | Except.error _ => none

/-- `ResearchManager.perform_searches` (lines 121–141): run `search_web` for
every task and collect, in completion order, exactly the non-`None` results. -/
def perform_searches (search_plan : WebSearchPlan)
    (outcomes : List (Except String String)) : List String :=
  (search_plan.searches.zip outcomes).filterMap (fun p => search_web p.1 p.2)

/-- A faulted search-task outcome (the task's `Runner.run` raised). -/
def isFault : Except String String → Bool
  | Except.ok _ => false
  | Except.error _ => true

/-- The prompt `write_report` builds (line 161). -/
def writer_prompt (query : String) (search_results : List String) : String :=
  "Original query: " ++ query ++ "\n\nSearch Results:\n"
    ++ String.intercalate "\n---\n" search_results

/-- `ResearchManager.write_report` (lines 159–173): forward the writer
outcome, raising `Report Writing failed: …` around a remote fault or around
the `ValueError` for a report with an empty body or summary. -/
def write_report (writer_outcome : Except String ReportData) :
    Except String ReportData :=
  match writer_outcome with
  | Except.ok report =>
    if report.markdown_report = "" ∨ report.short_summary = "" then
      Except.error "Report Writing failed: Writer agent returned incomplete report"
    else Except.ok report
  | Except.error e => Except.error ("Report Writing failed: " ++ e)

/-- `ResearchManager.send_report_email` (lines 177–191): forward the delivery
outcome, raising `Email sending failed: …` around a remote fault. -/
def send_report_email (delivery_outcome : Except String Unit) :
    Except String Unit :=
  match delivery_outcome with
  | Except.ok _ => Except.ok ()
  | Except.error e => Except.error ("Email sending failed: " ++ e)

/-- `ResearchManager.run_agents_step` (lines 54–78), an async generator: the
list of strings it yields, paired with `some e` when it terminates by raising
an exception with message `e` (from `plan_searches`, `write_report` or
`send_report_email`) and `none` when it runs to completion.  Its
`recipient_email` and `send_email` parameters hold whatever Python values the
caller passed positionally, hence `PyVal`. -/
def run_agents_step (query : String) (questions answers : List String)
    (recipient_email : PyVal) (send_email : PyVal) (o : AgentOracle) :
    List String × Option String :=
  let _ := plan_prompt query questions answers
  let steps0 := ["Planning searches based on clarifications..."]
  match plan_searches o.planner with
  | Except.error e => (steps0, some e)
  | Except.ok search_plan =>
    let steps1 := steps0
      ++ ["Starting " ++ toString search_plan.searches.length ++ " searches..."]
    let search_results := perform_searches search_plan o.searcher
    let _ := writer_prompt query search_results
    let steps2 := steps1 ++ ["Analyzing search results and writing report..."]
    match write_report o.writer with
    | Except.error e => (steps2, some e)
    | Except.ok report =>
      if send_email.truthy && recipient_email.truthy then
        let steps3 := steps2 ++ ["Sending report to " ++ recipient_email.format ++ "..."]
        match send_report_email o.delivery with
        | Except.error e => (steps3, some e)
        | Except.ok _ =>
          (steps3 ++ ["Report sent to " ++ recipient_email.format ++ ".",
                      report.markdown_report], none)
      else
        (steps2 ++ ["Email sending skipped.", report.markdown_report], none)

/-- `ResearchManager.run_pipeline` (lines 20–40) composed with
`execute_pipeline_research` (lines 44–50): the full ordered list of strings
the run yields.  `trace_id` stands for `gen_trace_id()`.  Any exception
raised inside the pipeline body is caught and turned into a final
`❌ Research pipeline failed: …` event; the trace line was already yielded
before the body ran. -/
def run_pipeline (query : String) (questions answers : List String)
    (recipient_email : PyVal) (send_email : PyVal) (trace_id : String)
    (o : AgentOracle) : List String :=
  let v := validate_input query questions answers
  if !v.1 then ["❌ Input validation failed: " ++ v.2]
  else if send_email.truthy && !recipient_email.truthy then
    ["❌ Email sending requested but no recipient email provided."]
  else
    let trace_step :=
      "Trace: https://platform.openai.com/traces/trace?trace_id=" ++ trace_id
    let body := run_agents_step query questions answers recipient_email send_email o
    match body.2 with
    | some e => trace_step :: body.1 ++ ["❌ Research pipeline failed: " ++ e]
    | none => trace_step :: body.1

/-! ## Caller-facing entry points (`src/deep_research.py`) -/

/-- The result shape of `generate_clarification_questions`: either a Python
list of strings (every path but one) or a bare string (the rate-limit denial
path returns `f"{message}"`). -/
inductive ClarifyResult where
  | list : List String → ClarifyResult
  | bare : String → ClarifyResult
deriving DecidableEq

/-- `generate_clarification_questions` (lines 102–128).  Returns the Python
return value, the rate-limiter state after the call, and whether
`rate_limiter.check_limits` was invoked at all.  `clarifier_outcome` is the
opaque remote clarifier call's outcome (the `questions` list of its structured
output, or a fault). -/
def generate_clarification_questions (query : String) (user_id : String)
    (now : Int) (today : String) (s : RLState)
    (clarifier_outcome : Except String (List String)) :
    ClarifyResult × RLState × Bool :=
  if query = "" ∨ strip query = "" then
    (ClarifyResult.list ["Please enter a research query first."], s, false)
  else
    let r := rate_limiter.check_limits now today user_id s
    if !r.1.1 then (ClarifyResult.bare r.1.2, r.2, true)
    else
      match clarifier_outcome with
      | Except.ok questions =>
        if questions = [] then
          (ClarifyResult.list ["Could not generate questions. Please try again."], r.2, true)
        else (ClarifyResult.list questions, r.2, true)
      | Except.error _ =>
        (ClarifyResult.list ["Error generating questions. Please try again."], r.2, true)

/-- `run_deep_research_pipeline` (lines 132–182).  Returns the ordered list of
strings the generator yields, the rate-limiter state after the call, and
whether `rate_limiter.check_limits` was invoked.  Note the call of lines
171–177 passes `send_email` and `recipient_email` positionally into
`run_pipeline (…, recipient_email, send_email)` — i.e. swapped — and passes
the full `questions`/`answers` lists, leaving the computed
`valid_questions`/`valid_answers` unused. -/
def run_deep_research_pipeline (query q1 q2 q3 a1 a2 a3 : String)
    (send_email : Bool) (recipient_email : String) (user_id : String)
    (now : Int) (today : String) (trace_id : String) (s : RLState)
    (o : AgentOracle) : List String × RLState × Bool :=
  if query = "" ∨ strip query = "" then
    (["❌ Please enter a research query first."], s, false)
  else if send_email && recipient_email = "" then
    (["❌ Please enter a recipient email to send the report."], s, false)
  else
    let r := rate_limiter.check_limits now today user_id s
    if !r.1.1 then (["❌ " ++ r.1.2], r.2, true)
    else
      let questions := [strip q1, strip q2, strip q3]
      let answers := [strip a1, strip a2, strip a3]
      -- `valid_pairs` is computed (line 160) but only its length is ever used (in a log line)
      let valid_pairs := (questions.zip answers).filter (fun p => !(p.1 = "") && !(p.2 = ""))
      let valid_questions := valid_pairs.map Prod.fst
      let valid_answers := valid_pairs.map Prod.snd
      let _ := (valid_questions, valid_answers)
      (run_pipeline query questions answers
        (PyVal.bool send_email) (PyVal.str recipient_email) trace_id o, r.2, true)

/-! ## Shared helper facts -/

/-- An oracle for a run in which every remote call succeeds: a one-item plan,
one successful search, a well-formed report, successful delivery. -/
def okOracle : AgentOracle :=
  { planner := Except.ok ⟨[⟨"background", "remote work"⟩]⟩
    searcher := [Except.ok "result one"]
    writer := Except.ok ⟨"summary", "# Report", "follow ups"⟩
    delivery := Except.ok () }

/-! ## Lemmas and claims -/

@[simp] theorem upd_same {α : Type} (f : String → α) (k : String) (v : α) :
    upd f k v k = v := by
  simp [upd]

/-- C1: the spec says a question/answer pair that is empty after trimming is
silently dropped and is not a validation failure.  The code computes the
filtered `valid_pairs` (with the comment "Keep only non-empty pairs") but then
passes the unfiltered `questions`/`answers` lists into `run_pipeline`, whose
`validate_input` hard-fails on the first empty question or answer.  Evaluated
at a run whose second pair is empty: the stream is the single validation
failure event, instead of proceeding with the pair dropped. -/
theorem C1_empty_pair_hard_fails_validation :
    (run_deep_research_pipeline "climate policy" "Scope?" "" "Timeframe?"
        "Global" "" "2020s" false "" "user" 0 "2026-10-12" "t1" initState okOracle).1
      = ["❌ Input validation failed: Question 2 is empty"] := by
  rfl

/-- C5: the spec says the delivery step is invoked with the caller-supplied
recipient address and the progress stream names that address.  The call at
`deep_research.py` lines 171–177 passes `send_email, recipient_email`
positionally into `run_pipeline(query, questions, answers, recipient_email,
send_email)`, so the delivery path receives the boolean `True` as the
recipient: on a fully successful run with recipient `user@example.com`, the
progress stream names `True`, never the supplied address. -/
theorem C5_delivery_receives_swapped_bool_recipient :
    (run_deep_research_pipeline "q" "Q1" "Q2" "Q3" "A1" "A2" "A3" true
        "user@example.com" "user" 0 "2026-10-12" "t1" initState okOracle).1
      = ["Trace: https://platform.openai.com/traces/trace?trace_id=t1",
         "Planning searches based on clarifications...",
         "Starting 1 searches...",
         "Analyzing search results and writing report...",
         "Sending report to True...",
         "Report sent to True.",
         "# Report"] := by
  rfl

/-- C8 counterexample: the claim says the construction-time default
configuration is 2 requests per minute and 2 requests per day, but the
default-constructed `RateLimiter` has `daily_limit = 4`
(`def __init__(self, requests_per_minute: int = 2, daily_limit: int = 4)`). -/
theorem C8_counterexample_default_daily_limit :
    ({} : RateLimiter).daily_limit = 4
      ∧ ¬(({} : RateLimiter).requests_per_minute = 2
            ∧ ({} : RateLimiter).daily_limit = 2) := by
  constructor
  · rfl
  · intro h
    exact absurd h.2 (by decide)

/-- C8 (amended): the constructor's default configuration is 2 requests per
minute and 4 requests per day; the application's module-level `rate_limiter`
is constructed with explicit arguments 2 requests per minute and 2 requests
per day. -/
theorem C8_defaults_and_global_config :
    ({} : RateLimiter).requests_per_minute = 2
      ∧ ({} : RateLimiter).daily_limit = 4
      ∧ rate_limiter.requests_per_minute = 2
      ∧ rate_limiter.daily_limit = 2 := by
  refine ⟨rfl, rfl, rfl, rfl⟩

/-- C9: every invocation of the `send_email` tool builds a Mailjet payload
whose sender is the hardcoded `youhorng.kean@gmail.com` and whose recipient is
the hardcoded `lolishi30@gmail.com`; the payload is identical for any two
values of the `to` parameter, so the caller-supplied recipient never reaches
the transport payload. -/
theorem C9_send_email_hardcoded_recipient (subject html_body to1 to2 : String) :
    (send_email subject html_body to1).fromEmail = "youhorng.kean@gmail.com"
      ∧ (send_email subject html_body to1).toEmail = "lolishi30@gmail.com"
      ∧ send_email subject html_body to1 = send_email subject html_body to2 := by
  refine ⟨rfl, rfl, rfl⟩

/-- C3: for every limiter configuration, identifier and state, one admission
check either (a) is denied and leaves the identifier's minute window equal to
its pruned value (timestamps older than 60 seconds removed, nothing else) and
its count of requests attributed to today unchanged, or (b) is allowed and
appends exactly the timestamp `now` to the pruned minute window and increments
the count attributed to today by exactly one. -/
theorem C3_check_limits_quota_delta (rl : RateLimiter) (now : Int)
    (today user_id : String) (s : RLState) :
    let r := rl.check_limits now today user_id s
    let pruned := (s.request_time user_id).filter (fun t => now - t < 60)
    (r.1.1 = false ∧ r.2.request_time user_id = pruned
        ∧ dailyCountToday r.2 user_id today = dailyCountToday s user_id today)
      ∨ (r.1.1 = true ∧ r.2.request_time user_id = pruned ++ [now]
        ∧ dailyCountToday r.2 user_id today
            = dailyCountToday s user_id today + 1) := by
  simp only [RateLimiter.check_limits, cleanup_old_requests]
  by_cases h1 :
      ((s.request_time user_id).filter (fun t => now - t < 60)).length
        ≥ rl.requests_per_minute
  · left
    simp [h1, dailyCountToday]
  · by_cases h2 : s.daily_date user_id ≠ today
    · -- stale stored date: the record is reset to (today, 0) before the daily check
      by_cases h3 : (0 : Nat) ≥ rl.daily_limit
      · left
        simp [h1, h2, h3, dailyCountToday, upd]
      · right
        simp [h1, h2, h3, dailyCountToday, upd]
    · push_neg at h2
      by_cases h3 : s.daily_count user_id ≥ rl.daily_limit
      · left
        simp [h1, h2, h3, dailyCountToday, upd]
      · right
        simp [h1, h2, h3, dailyCountToday, upd]

theorem filter_replicate_now (now : Int) (k : Nat) :
    (List.replicate k now).filter (fun t => now - t < 60) = List.replicate k now := by
  induction k with
  | zero => rfl
  | succ n ih => simp [List.replicate_succ, List.filter_cons, ih]

/-- One allowed step: from a state whose pruned minute window is `k` copies of
`now` with `k` under the per-minute cap and whose count attributed to today is
`c` with `c` under the daily cap, `check_limits` allows, the pruned minute
window becomes `k + 1` copies of `now`, and the count becomes `c + 1`. -/
theorem check_limits_allowed_step (rl : RateLimiter) (now : Int)
    (today user_id : String) (s : RLState) (k c : Nat)
    (hwin : (s.request_time user_id).filter (fun t => now - t < 60)
        = List.replicate k now)
    (hk : k < rl.requests_per_minute)
    (hdc : dailyCountToday s user_id today = c)
    (hc : c < rl.daily_limit) :
    (rl.check_limits now today user_id s).1 = (true, "OK")
      ∧ ((rl.check_limits now today user_id s).2.request_time user_id).filter
            (fun t => now - t < 60) = List.replicate (k + 1) now
      ∧ dailyCountToday (rl.check_limits now today user_id s).2 user_id today
          = c + 1 := by
  have hk' : ¬ rl.requests_per_minute ≤ k := by omega
  by_cases h2 : s.daily_date user_id ≠ today
  · have hc0 : c = 0 := by
      simp [dailyCountToday, fun h => h2 h] at hdc
      omega
    have h3' : ¬ rl.daily_limit ≤ 0 := by omega
    refine ⟨?_, ?_, ?_⟩ <;>
      simp [RateLimiter.check_limits, cleanup_old_requests, hk', h2, h3', upd,
        dailyCountToday, hwin, ← List.replicate_succ' k now, filter_replicate_now,
        hc0]
  · push_neg at h2
    have hcount : s.daily_count user_id = c := by
      simpa [dailyCountToday, h2] using hdc
    have h3' : ¬ rl.daily_limit ≤ s.daily_count user_id := by omega
    have h3c : ¬ rl.daily_limit ≤ c := by omega
    refine ⟨?_, ?_, ?_⟩ <;>
      simp [RateLimiter.check_limits, cleanup_old_requests, hk', h2, h3', h3c, upd,
        dailyCountToday, hwin, ← List.replicate_succ' k now, filter_replicate_now,
        hcount]

/-- One denied step at the per-minute cap: from a state whose pruned minute
window already holds `requests_per_minute` copies of `now`, `check_limits`
denies with the per-minute message, keeps the minute window at its pruned
value and leaves the count attributed to today unchanged. -/
theorem check_limits_minute_denied (rl : RateLimiter) (now : Int)
    (today user_id : String) (s : RLState)
    (hwin : (s.request_time user_id).filter (fun t => now - t < 60)
        = List.replicate rl.requests_per_minute now) :
    (rl.check_limits now today user_id s).1
        = (false, "Rate limit exceeded: Max " ++ toString rl.requests_per_minute
            ++ " requests per minute.")
      ∧ (rl.check_limits now today user_id s).2.request_time user_id
          = List.replicate rl.requests_per_minute now
      ∧ dailyCountToday (rl.check_limits now today user_id s).2 user_id today
          = dailyCountToday s user_id today := by
  have hlen : ((s.request_time user_id).filter (fun t => now - t < 60)).length
      ≥ rl.requests_per_minute := by
    rw [hwin, List.length_replicate]
  refine ⟨?_, ?_, ?_⟩ <;>
    simp [RateLimiter.check_limits, cleanup_old_requests, hlen, hwin, upd,
      dailyCountToday]

theorem runChecks_add (rl : RateLimiter) (now : Int) (today user_id : String)
    (m n : Nat) (s : RLState) :
    runChecks rl now today user_id (m + n) s
      = ((runChecks rl now today user_id m s).1
            ++ (runChecks rl now today user_id n
                  (runChecks rl now today user_id m s).2).1,
         (runChecks rl now today user_id n
            (runChecks rl now today user_id m s).2).2) := by
  induction m generalizing s with
  | zero => simp [runChecks]
  | succ m ih =>
    have : m + 1 + n = (m + n) + 1 := by omega
    rw [this]
    simp only [runChecks, ih, List.cons_append]

/-- `j` consecutive checks from a state with pruned window `k` copies of `now`
and today-count `c`, all staying under both caps, are all allowed and advance
the window to `k + j` copies and the count to `c + j`. -/
theorem runChecks_all_allowed (rl : RateLimiter) (now : Int)
    (today user_id : String) (j : Nat) :
    ∀ (s : RLState) (k c : Nat),
      (s.request_time user_id).filter (fun t => now - t < 60)
          = List.replicate k now →
      dailyCountToday s user_id today = c →
      k + j ≤ rl.requests_per_minute →
      c + j ≤ rl.daily_limit →
      (runChecks rl now today user_id j s).1 = List.replicate j (true, "OK")
        ∧ ((runChecks rl now today user_id j s).2.request_time user_id).filter
              (fun t => now - t < 60) = List.replicate (k + j) now
        ∧ dailyCountToday (runChecks rl now today user_id j s).2 user_id today
            = c + j := by
  induction j with
  | zero =>
    intro s k c hwin hdc _ _
    exact ⟨rfl, hwin, hdc⟩
  | succ j ih =>
    intro s k c hwin hdc hk hc
    have step := check_limits_allowed_step rl now today user_id s k c hwin
      (by omega) hdc (by omega)
    have rest := ih (rl.check_limits now today user_id s).2 (k + 1) (c + 1)
      step.2.1 step.2.2 (by omega) (by omega)
    refine ⟨?_, ?_, ?_⟩
    · simp only [runChecks, step.1, rest.1, List.replicate_succ]
    · simpa [runChecks, show k + 1 + j = k + (j + 1) by omega] using rest.2.1
    · simpa [runChecks, show c + 1 + j = c + (j + 1) by omega] using rest.2.2

/-- C2: for every limiter configuration and identifier, issuing
`requests_per_minute + 1` admission checks at one instant (hence within one
second) on one calendar day, starting from a state whose minute window is
empty after pruning and whose daily quota has room for `requests_per_minute`
more requests: the first `requests_per_minute` checks are allowed, the last
check is denied with the per-minute message, and the count of requests
attributed to today rises by exactly `requests_per_minute` — the denied check
does not increment the daily counter. -/
theorem C2_minute_burst_first_allowed_then_denied (rl : RateLimiter)
    (user_id : String) (now : Int) (today : String) (s : RLState)
    (hwin : (s.request_time user_id).filter (fun t => now - t < 60) = [])
    (hdaily : dailyCountToday s user_id today + rl.requests_per_minute
        ≤ rl.daily_limit) :
    (runChecks rl now today user_id (rl.requests_per_minute + 1) s).1
        = List.replicate rl.requests_per_minute (true, "OK")
          ++ [(false, "Rate limit exceeded: Max " ++ toString rl.requests_per_minute
                ++ " requests per minute.")]
      ∧ dailyCountToday
            (runChecks rl now today user_id (rl.requests_per_minute + 1) s).2
            user_id today
          = dailyCountToday s user_id today + rl.requests_per_minute := by
  have allowed := runChecks_all_allowed rl now today user_id
    rl.requests_per_minute s 0 (dailyCountToday s user_id today)
    (by simpa using hwin) rfl (by omega) (by omega)
  set s1 := (runChecks rl now today user_id rl.requests_per_minute s).2 with hs1
  have denied := check_limits_minute_denied rl now today user_id s1
    (by simpa using allowed.2.1)
  rw [runChecks_add rl now today user_id rl.requests_per_minute 1 s]
  refine ⟨?_, ?_⟩
  · simp only [allowed.1, ← hs1, runChecks, denied.1]
  · simpa [← hs1, runChecks, denied.2.2] using allowed.2.2

/-- C2 witness: the global 2-per-minute/2-per-day limiter, a fresh state, one
identifier: the hypotheses hold concretely and the theorem yields
`[Allowed, Allowed, Denied(per-minute)]` with a final today-count of 2. -/
theorem C2_minute_burst_witness :
    ((initState.request_time "user").filter (fun t => (0 : Int) - t < 60) = []
        ∧ dailyCountToday initState "user" "2026-10-12"
            + rate_limiter.requests_per_minute ≤ rate_limiter.daily_limit)
      ∧ ((runChecks rate_limiter 0 "2026-10-12" "user"
              (rate_limiter.requests_per_minute + 1) initState).1
            = List.replicate rate_limiter.requests_per_minute (true, "OK")
              ++ [(false, "Rate limit exceeded: Max "
                    ++ toString rate_limiter.requests_per_minute
                    ++ " requests per minute.")]
          ∧ dailyCountToday
                (runChecks rate_limiter 0 "2026-10-12" "user"
                  (rate_limiter.requests_per_minute + 1) initState).2
                "user" "2026-10-12"
              = dailyCountToday initState "user" "2026-10-12"
                + rate_limiter.requests_per_minute) :=
  ⟨⟨rfl, by decide⟩,
   C2_minute_burst_first_allowed_then_denied rate_limiter "user" 0 "2026-10-12"
     initState rfl (by decide)⟩

theorem perform_searches_zip_length :
    ∀ (items : List WebSearchItem) (outcomes : List (Except String String)),
      items.length = outcomes.length →
      ((items.zip outcomes).filterMap (fun p => search_web p.1 p.2)).length
        = outcomes.length - (outcomes.filter (fun r => isFault r)).length := by
  intro items
  induction items with
  | nil =>
    intro outcomes h
    cases outcomes with
    | nil => rfl
    | cons o os => simp at h
  | cons i is ih =>
    intro outcomes h
    cases outcomes with
    | nil => simp at h
    | cons o os =>
      have hlen : is.length = os.length := by simpa using h
      have hk : (os.filter (fun r => isFault r)).length ≤ os.length :=
        List.length_filter_le _ _
      cases o with
      | ok v =>
        have hrec := ih os hlen
        simp only [isFault] at hk
        simp [search_web, isFault, List.filter_cons] at hrec ⊢
        omega
      | error e =>
        have hrec := ih os hlen
        simp only [isFault] at hk
        simp [search_web, isFault, List.filter_cons] at hrec ⊢
        omega

/-- C4: for every plan of `N` tasks with per-task outcomes of which `k` fault,
`perform_searches` (a total function: an individual task fault is absorbed by
`search_web`, never raised) returns exactly `N − k` results, and — whenever
planning itself succeeded with a non-empty plan — the run_agents_step stream
reaches the Writing stage ("Analyzing search results and writing report...")
regardless of the search outcomes, including when all `N` fault and zero
results are returned. -/
theorem C4_search_fanout_tolerates_failures (query : String)
    (questions answers : List String) (recipient_email send_email : PyVal)
    (o : AgentOracle) (plan : WebSearchPlan)
    (hp : o.planner = Except.ok plan) (hne : plan.searches ≠ [])
    (hl : plan.searches.length = o.searcher.length) :
    (perform_searches plan o.searcher).length
        = o.searcher.length - (o.searcher.filter (fun r => isFault r)).length
      ∧ "Analyzing search results and writing report..."
          ∈ (run_agents_step query questions answers recipient_email send_email o).1 := by
  constructor
  · exact perform_searches_zip_length plan.searches o.searcher hl
  · have hplan : plan_searches o.planner = Except.ok plan := by
      rw [hp]
      simp [plan_searches, hne]
    simp only [run_agents_step, hplan]
    rcases hw : write_report o.writer with e | report
    · simp
    · by_cases hsend : (send_email.truthy && recipient_email.truthy) = true
      · simp only [hsend, if_true]
        rcases hd : send_report_email o.delivery with e | u <;> simp
      · simp only [Bool.not_eq_true] at hsend
        simp [hsend]

/-- C4 witness: a two-task plan in which both tasks fault — zero results are
returned (2 − 2) and the stream still reaches the Writing stage. -/
theorem C4_search_fanout_witness :
    ((AgentOracle.mk (Except.ok ⟨[⟨"r1", "q1"⟩, ⟨"r2", "q2"⟩]⟩)
          [Except.error "timeout", Except.error "quota"]
          (Except.ok ⟨"summary", "# Report", "follow ups"⟩)
          (Except.ok ())).planner
        = Except.ok (⟨[⟨"r1", "q1"⟩, ⟨"r2", "q2"⟩]⟩ : WebSearchPlan)
      ∧ (⟨[⟨"r1", "q1"⟩, ⟨"r2", "q2"⟩]⟩ : WebSearchPlan).searches ≠ []
      ∧ (⟨[⟨"r1", "q1"⟩, ⟨"r2", "q2"⟩]⟩ : WebSearchPlan).searches.length
          = [Except.error (ε := String) (α := String) "timeout",
             Except.error "quota"].length)
      ∧ ((perform_searches ⟨[⟨"r1", "q1"⟩, ⟨"r2", "q2"⟩]⟩
              [Except.error "timeout", Except.error "quota"]).length
          = [Except.error (ε := String) (α := String) "timeout",
             Except.error "quota"].length
            - ([Except.error (ε := String) (α := String) "timeout",
                Except.error "quota"].filter (fun r => isFault r)).length
        ∧ "Analyzing search results and writing report..."
            ∈ (run_agents_step "q" [] [] (PyVal.str "") (PyVal.bool false)
                (AgentOracle.mk (Except.ok ⟨[⟨"r1", "q1"⟩, ⟨"r2", "q2"⟩]⟩)
                  [Except.error "timeout", Except.error "quota"]
                  (Except.ok ⟨"summary", "# Report", "follow ups"⟩)
                  (Except.ok ()))).1) :=
  ⟨⟨rfl, by decide, rfl⟩,
   C4_search_fanout_tolerates_failures "q" [] [] (PyVal.str "") (PyVal.bool false)
     (AgentOracle.mk (Except.ok ⟨[⟨"r1", "q1"⟩, ⟨"r2", "q2"⟩]⟩)
       [Except.error "timeout", Except.error "quota"]
       (Except.ok ⟨"summary", "# Report", "follow ups"⟩)
       (Except.ok ()))
     ⟨[⟨"r1", "q1"⟩, ⟨"r2", "q2"⟩]⟩ rfl (by decide) rfl⟩

/-- C7: for every query that is empty after stripping, both caller-facing
entry points return/yield immediately: `generate_clarification_questions`
returns the list `["Please enter a research query first."]` and
`run_deep_research_pipeline` yields the single event
`"❌ Please enter a research query first."` (the same message behind the
stream's standard failure marker).  In both, the rate-limiter state is
returned unchanged and the admission-check flag is `false`
(`check_limits` was never invoked), and the result is independent of the
remote-call oracle, so no remote call is consulted. -/
theorem C7_empty_query_short_circuits (query : String)
    (hq : strip query = "") (q1 q2 q3 a1 a2 a3 : String) (send_email : Bool)
    (recipient_email user_id : String) (now : Int) (today trace_id : String)
    (s : RLState) (clarifier_outcome : Except String (List String))
    (o : AgentOracle) :
    generate_clarification_questions query user_id now today s clarifier_outcome
        = (ClarifyResult.list ["Please enter a research query first."], s, false)
      ∧ run_deep_research_pipeline query q1 q2 q3 a1 a2 a3 send_email
          recipient_email user_id now today trace_id s o
        = (["❌ Please enter a research query first."], s, false) := by
  constructor
  · simp [generate_clarification_questions, hq]
  · simp [run_deep_research_pipeline, hq]

/-- C7 witness: a whitespace-only query, concrete everything else. -/
theorem C7_empty_query_witness :
    strip "   " = ""
      ∧ (generate_clarification_questions "   " "user" 0 "2026-10-12" initState
            (Except.ok ["some question"])
          = (ClarifyResult.list ["Please enter a research query first."],
             initState, false)
        ∧ run_deep_research_pipeline "   " "Q1" "Q2" "Q3" "A1" "A2" "A3" false
            "" "user" 0 "2026-10-12" "t1" initState okOracle
          = (["❌ Please enter a research query first."], initState, false)) :=
  ⟨by decide,
   C7_empty_query_short_circuits "   " (by decide) "Q1" "Q2" "Q3" "A1" "A2" "A3"
     false "" "user" 0 "2026-10-12" "t1" initState (Except.ok ["some question"])
     okOracle⟩

/-- C10: `generate_clarification_questions` returns a bare string — violating
its declared `List[str]` return shape — exactly on the rate-limit denial path,
and then the bare string is the denial message; in every other outcome (empty
query, success, empty question set, remote fault) it returns a list of
strings. -/
theorem C10_denial_returns_bare_string (query user_id : String) (now : Int)
    (today : String) (s : RLState)
    (clarifier_outcome : Except String (List String)) :
    (strip query ≠ ""
        ∧ (rate_limiter.check_limits now today user_id s).1.1 = false
        ∧ (generate_clarification_questions query user_id now today s
              clarifier_outcome).1
            = ClarifyResult.bare (rate_limiter.check_limits now today user_id s).1.2)
      ∨ ((strip query = ""
            ∨ (rate_limiter.check_limits now today user_id s).1.1 = true)
        ∧ ∃ qs, (generate_clarification_questions query user_id now today s
              clarifier_outcome).1
            = ClarifyResult.list qs) := by
  by_cases hq : strip query = ""
  · right
    refine ⟨Or.inl hq, ["Please enter a research query first."], ?_⟩
    simp [generate_clarification_questions, hq]
  · have hq0 : ¬ query = "" := by
      intro h
      subst h
      exact hq (by decide)
    by_cases hchk : (rate_limiter.check_limits now today user_id s).1.1 = true
    · right
      refine ⟨Or.inr hchk, ?_⟩
      rcases clarifier_outcome with e | questions
      · exact ⟨["Error generating questions. Please try again."],
          by simp [generate_clarification_questions, hq, hq0, hchk]⟩
      · by_cases hqs : questions = []
        · exact ⟨["Could not generate questions. Please try again."],
            by simp [generate_clarification_questions, hq, hq0, hchk, hqs]⟩
        · exact ⟨questions,
            by simp [generate_clarification_questions, hq, hq0, hchk, hqs]⟩
    · left
      simp only [Bool.not_eq_true] at hchk
      refine ⟨hq, hchk, ?_⟩
      simp [generate_clarification_questions, hq, hq0, hchk]

theorem write_report_ok_inv (w : Except String ReportData) (r : ReportData)
    (h : write_report w = Except.ok r) : w = Except.ok r := by
  cases w with
  | ok report =>
    by_cases hbad : report.markdown_report = "" ∨ report.short_summary = ""
    · simp [write_report, hbad] at h
    · simpa [write_report, hbad] using h
  | error e => simp [write_report] at h

/-- If `run_agents_step` runs to completion without raising, the writer call
succeeded and the yielded steps end with that report's markdown body. -/
theorem run_agents_step_success (query : String) (questions answers : List String)
    (recipient_email send_email : PyVal) (o : AgentOracle)
    (h : (run_agents_step query questions answers recipient_email send_email o).2
        = none) :
    ∃ r l', o.writer = Except.ok r
      ∧ (run_agents_step query questions answers recipient_email send_email o).1
          = l' ++ [r.markdown_report] := by
  rcases hplan : plan_searches o.planner with e | search_plan
  · simp [run_agents_step, hplan] at h
  · rcases hw : write_report o.writer with e | report
    · simp [run_agents_step, hplan, hw] at h
    · refine ⟨report, ?_⟩
      have hwriter := write_report_ok_inv o.writer report hw
      have reshape : ∀ (l : List String) (a b : String),
          l ++ [a, b] = (l ++ [a]) ++ [b] := fun l a b => by simp
      by_cases hsend : (send_email.truthy && recipient_email.truthy) = true
      · rcases hd : send_report_email o.delivery with e | u
        · simp [run_agents_step, hplan, hw, hsend, hd] at h
        · apply Exists.intro
          refine ⟨hwriter, ?_⟩
          simp only [run_agents_step, hplan, hw, hsend, if_true, hd]
          rw [reshape]
      · simp only [Bool.not_eq_true] at hsend
        apply Exists.intro
        refine ⟨hwriter, ?_⟩
        simp only [run_agents_step, hplan, hw, hsend, Bool.false_eq_true, if_false]
        rw [reshape]

/-- The stream of one `run_pipeline` call always ends, and its last event is
either a `❌ `-prefixed failure message or the successful writer report's
markdown body. -/
theorem run_pipeline_last (query : String) (questions answers : List String)
    (recipient_email send_email : PyVal) (trace_id : String) (o : AgentOracle) :
    ∃ final,
      (run_pipeline query questions answers recipient_email send_email trace_id o).getLast?
          = some final
        ∧ ((∃ m, final = "❌ " ++ m)
          ∨ ∃ r, o.writer = Except.ok r ∧ final = r.markdown_report) := by
  by_cases hv : (validate_input query questions answers).1 = true
  · by_cases hmail : (send_email.truthy && !recipient_email.truthy) = true
    · refine ⟨"❌ Email sending requested but no recipient email provided.",
        ?_, Or.inl ⟨"Email sending requested but no recipient email provided.",
          by decide⟩⟩
      simp [run_pipeline, hv, hmail]
    · simp only [Bool.not_eq_true] at hmail
      rcases hbody : (run_agents_step query questions answers recipient_email
          send_email o).2 with _ | e
      · obtain ⟨r, l', hwriter, hsteps⟩ := run_agents_step_success query
          questions answers recipient_email send_email o hbody
        refine ⟨r.markdown_report, ?_, Or.inr ⟨r, hwriter, rfl⟩⟩
        simp only [run_pipeline, hv, Bool.not_true, if_true, hmail,
          Bool.false_eq_true, if_false, hbody, hsteps]
        rw [← List.cons_append]
        exact List.getLast?_concat _
      · refine ⟨"❌ Research pipeline failed: " ++ e, ?_,
          Or.inl ⟨"Research pipeline failed: " ++ e, ?_⟩⟩
        · simp only [run_pipeline, hv, Bool.not_true, if_true, hmail,
            Bool.false_eq_true, if_false, hbody]
          exact List.getLast?_concat _
        · rw [show ("❌ Research pipeline failed: " : String)
                = "❌ " ++ "Research pipeline failed: " from by decide,
            String.append_assoc]
  · simp only [Bool.not_eq_true] at hv
    refine ⟨"❌ Input validation failed: "
        ++ (validate_input query questions answers).2, ?_,
      Or.inl ⟨"Input validation failed: "
        ++ (validate_input query questions answers).2, ?_⟩⟩
    · simp [run_pipeline, hv]
    · rw [show ("❌ Input validation failed: " : String)
            = "❌ " ++ "Input validation failed: " from by decide,
        String.append_assoc]

/-- C6: for every input, rate-limiter state and oracle of remote-call
outcomes, the progress stream of `run_deep_research_pipeline` is non-empty and
its final event is either a failure message prefixed with `❌ ` or the
successful writer call's markdown report; since the embedding is a total
function of the oracle, every modelled stage fault is absorbed rather than
escaping to the caller. -/
theorem C6_stream_ends_with_report_or_failure (query q1 q2 q3 a1 a2 a3 : String)
    (send_email : Bool) (recipient_email user_id : String) (now : Int)
    (today trace_id : String) (s : RLState) (o : AgentOracle) :
    ∃ final,
      (run_deep_research_pipeline query q1 q2 q3 a1 a2 a3 send_email
          recipient_email user_id now today trace_id s o).1.getLast?
          = some final
        ∧ ((∃ m, final = "❌ " ++ m)
          ∨ ∃ r, o.writer = Except.ok r ∧ final = r.markdown_report) := by
  by_cases hq : query = "" ∨ strip query = ""
  · refine ⟨"❌ Please enter a research query first.", ?_,
      Or.inl ⟨"Please enter a research query first.", by decide⟩⟩
    simp [run_deep_research_pipeline, hq]
  · by_cases hmail : (send_email && recipient_email = "") = true
    · refine ⟨"❌ Please enter a recipient email to send the report.", ?_,
        Or.inl ⟨"Please enter a recipient email to send the report.", by decide⟩⟩
      simp only [run_deep_research_pipeline, hq, if_false]
      simp [hmail]
    · simp only [Bool.not_eq_true] at hmail
      by_cases hallow :
          (rate_limiter.check_limits now today user_id s).1.1 = true
      · obtain ⟨final, hlast, hshape⟩ := run_pipeline_last query
          [strip q1, strip q2, strip q3] [strip a1, strip a2, strip a3]
          (PyVal.bool send_email) (PyVal.str recipient_email) trace_id o
        refine ⟨final, ?_, hshape⟩
        simp only [run_deep_research_pipeline, hq, if_false, hmail,
          Bool.false_eq_true, hallow]
        simpa using hlast
      · simp only [Bool.not_eq_true] at hallow
        refine ⟨"❌ " ++ (rate_limiter.check_limits now today user_id s).1.2,
          ?_, Or.inl ⟨(rate_limiter.check_limits now today user_id s).1.2, rfl⟩⟩
        simp only [run_deep_research_pipeline, hq, if_false, hmail,
          Bool.false_eq_true, hallow]
        simp

end DeepResearch
